import Mathlib

/-!
Verification of the Jira auto-close bot (`jira_auto_close.py`, `test_scripts.py`,
`debug_sla.py`).

The Python data flowing through the SLA evaluator is loosely typed JSON-like
data (after the jira library's `PropertyHolder` wrappers have been converted to
plain dictionaries by the scripts' `to_dict` helpers, which this model treats as
the identity).  We model such values with the `Value` inductive below, Python
truthiness with `truthy`, Python `str()`/`repr()` with `pyToStr`/`pyRepr`,
Python's `in` substring operator with `hasSubstr`, and operations that can raise
(`.lower()` on a non-string, `for _ in x` on a non-iterable) in an
`Except Unit` monad.  Timestamps (timezone-naive `datetime` values after the
scripts' `strptime(...).replace(tzinfo=None)` normalisation) are modelled as
minutes since a fixed reference Monday 00:00, so that Python's
`date.weekday()` becomes `t / 1440 % 7`.
-/

/-- JSON-like Python value (dicts modelled as association lists). -/
inductive Value where
  | vNone : Value
  | vBool : Bool → Value
  | vInt : Int → Value
  | vStr : String → Value
  | vList : List Value → Value
  | vDict : List (String × Value) → Value
deriving Repr

/-- Python truthiness (`if x:`): `None`, `False`, `0`, `""`, `[]`, `{}` are falsy. -/
def truthy : Value → Bool
  | .vNone => false
  | .vBool b => b
  | .vInt n => n != 0
  | .vStr s => s != ""
  | .vList xs => !xs.isEmpty
  | .vDict xs => !xs.isEmpty

/-- Python `isinstance(x, dict)`. -/
def Value.isDict : Value → Bool
  | .vDict _ => true
  | _ => false

/-- Dictionary lookup, `none` when the value is not a dict (used only to state
spec-side properties; the scripts always guard `.get` with `isinstance`). -/
def Value.get? (v : Value) (k : String) : Option Value :=
  match v with
  | .vDict xs => xs.lookup k
  | _ => none

/-- Python `d.get(k, default)`.  In the source every `.get` call is guarded by an
`isinstance(_, dict)` check, so the non-dict fallback is never reached. -/
def Value.getD (v : Value) (k : String) (dflt : Value) : Value :=
  match v with
  | .vDict xs => (xs.lookup k).getD dflt
  | _ => dflt

/-- Python `x == True`: `True` itself and the numerically equal `1` compare
equal to `True`; every other JSON-like value does not. -/
def pyEqTrue : Value → Bool
  | .vBool b => b
  | .vInt n => n == 1
  | _ => false

/-- Python iteration `for x in v`: lists yield elements, strings yield their
characters, dicts yield their keys; other values raise `TypeError`. -/
def pyIter : Value → Except Unit (List Value)
  | .vList xs => .ok xs
  | .vStr s => .ok (s.data.map (fun c => .vStr (String.singleton c)))
  | .vDict xs => .ok (xs.map (fun p => .vStr p.fst))
  | _ => .error ()

mutual

/-- Python `repr()` of a JSON-like value (strings single-quoted, as in the
`str(field_value)` serialisation the detection heuristic searches). -/
def pyRepr : Value → String
  | .vNone => "None"
  | .vBool b => if b then "True" else "False"
  | .vInt n => toString n
  | .vStr s => "'" ++ s ++ "'"
  | .vList xs => "[" ++ pyReprList xs ++ "]"
  | .vDict xs => "\x7b" ++ pyReprDict xs ++ "\x7d"

/-- Comma-separated `repr`s of list elements. -/
def pyReprList : List Value → String
  | [] => ""
  | [v] => pyRepr v
  | v :: w :: rest => pyRepr v ++ ", " ++ pyReprList (w :: rest)

/-- Comma-separated `'key': repr(value)` pairs of dict entries. -/
def pyReprDict : List (String × Value) → String
  | [] => ""
  | [p] => "'" ++ p.fst ++ "': " ++ pyRepr p.snd
  | p :: q :: rest => "'" ++ p.fst ++ "': " ++ pyRepr p.snd ++ ", " ++ pyReprDict (q :: rest)

end

/-- Python `str()` as used in f-string interpolation: strings unquoted,
everything else as `repr`. -/
def pyToStr : Value → String
  | .vStr s => s
  | v => pyRepr v

/-- Substring test on character lists: `pat` occurs somewhere in the list. -/
def hasSubList (pat : List Char) : List Char → Bool
  | [] => pat.isEmpty
  | c :: rest => pat.isPrefixOf (c :: rest) || hasSubList pat rest

/-- Python `pat in s` for strings. -/
def hasSubstr (s pat : String) : Bool :=
  hasSubList pat.data s.data

/-- Python `s.lower()` (ASCII lowering, character by character). -/
def pyLower (s : String) : String :=
  ⟨s.data.map Char.toLower⟩

/-!
## SLA evaluator — `check_sla_breach` in `test_scripts.py` (lines 33-152)

A ticket's field set is a list of `(attribute name, value)` pairs, in the order
Python's `dir(full_ticket.fields)` yields them.  The outer `try` of
`check_sla_breach` catches every internal exception and returns `False`; the
function's console output is modelled as a list of printed lines (the
`except` branch's message, which interpolates `str(e)`, is modelled as its
fixed prefix).
-/

/-- Detection heuristic, lines 60-73: an attribute whose name contains
`customfield`, whose (`to_dict`-converted) value is a truthy dict, and whose
`str()` serialisation contains `ongoingCycle` or `completedCycles`. -/
def detectSlaField (fieldName : String) (v : Value) : Bool :=
  hasSubstr fieldName "customfield" && truthy v && v.isDict &&
    (hasSubstr (pyRepr v) "ongoingCycle" || hasSubstr (pyRepr v) "completedCycles")

/-- Lines 60-73: collect `(field_name, sla_name, field_value)` triples, where
`sla_name = field_value.get('name', field_name)`. -/
def findSlaFields (fields : List (String × Value)) : List (String × Value × Value) :=
  fields.filterMap (fun p =>
    if detectSlaField p.fst p.snd then
      some (p.fst, p.snd.getD "name" (.vStr p.fst), p.snd)
    else none)

/-- The four accumulator flags of lines 78-82. -/
structure SlaState where
  fr_found : Bool
  fr_breached : Bool
  res_found : Bool
  res_breached : Bool
deriving Repr, DecidableEq

/-- `time_to_first_response_* = time_to_resolution_* = False` (lines 78-82). -/
def initState : SlaState := ⟨false, false, false, false⟩

/-- Category mapping, lines 122-130, applied to the already lower-cased SLA
name.  Note the `elif`: a name matching `first response` is never also tested
against the resolution pattern. -/
def applyCategory (st : SlaState) (nameLower : String) (isBreached : Bool) : SlaState :=
  if hasSubstr nameLower "first response" then
    { st with fr_found := true, fr_breached := st.fr_breached || isBreached }
  else if hasSubstr nameLower "resolution" && !(hasSubstr nameLower "close after") then
    { st with res_found := true, res_breached := st.res_breached || isBreached }
  else st

/-- Lines 102-103 / 107-108 / 116-119:
`x = to_dict(container.get(key, {})); x.get('friendly', 'N/A') if isinstance(x, dict) else 'N/A'`,
rendered through f-string `str()`. -/
def friendlyOf (container : Value) (key : String) : String :=
  match container.getD key (.vDict []) with
  | .vDict d => pyToStr ((d.lookup "friendly").getD (.vStr "N/A"))
  | _ => "N/A"

/-- Per-field body of the loop at lines 84-130: branch on the ongoing cycle,
then on completed cycles (printing one line per dict-shaped completed cycle —
the iteration itself raising `TypeError` on a truthy non-iterable), then map
the field into categories.  `sla_name.lower()` (line 86) raises
`AttributeError` when the stored `sla_name` is not a string. -/
def processField (st : SlaState) (e : String × Value × Value) : Except Unit (SlaState × List String) :=
  let v := e.snd.snd
  if v.isDict then
    match e.snd.fst with
    | .vStr slaName =>
      let nLower := pyLower slaName
      let ongoing := v.getD "ongoingCycle" (.vDict [])
      let completed := v.getD "completedCycles" (.vList [])
      if truthy ongoing && ongoing.isDict && pyEqTrue (ongoing.getD "breached" .vNone) then
        .ok (applyCategory st nLower true,
          ["    SLA " ++ slaName ++ ": ✗ BREACHED (elapsed: " ++
            friendlyOf ongoing "elapsedTime" ++ ")"])
      else if truthy ongoing && ongoing.isDict then
        .ok (applyCategory st nLower false,
          ["    SLA " ++ slaName ++ ": ✓ Not breached (remaining: " ++
            friendlyOf ongoing "remainingTime" ++ ")"])
      else if truthy completed then
        match pyIter completed with
        | .ok cycles =>
          .ok (applyCategory st nLower true,
            cycles.filterMap (fun c =>
              if c.isDict then
                some ("    SLA " ++ slaName ++ " (completed): ✗ BREACHED (elapsed: " ++
                  friendlyOf c "elapsedTime" ++ " / goal: " ++ friendlyOf c "goalDuration" ++ ")")
              else none))
        | .error u => .error u
      else
        .ok (applyCategory st nLower false, [])
    | _ => .error ()
  else
    .ok (st, [])

/-- The flag effect of one field, discarding printed lines. -/
def processFieldFlags (st : SlaState) (e : String × Value × Value) : Except Unit SlaState :=
  match processField st e with
  | .ok p => .ok p.fst
  | .error u => .error u

/-- The loop of lines 84-130 over all detected SLA fields; an exception raised
by any field aborts the loop (it is caught by the function-level `except`). -/
def processFields (st : SlaState) : List (String × Value × Value) → (Except Unit SlaState) × List String
  | [] => (.ok st, [])
  | e :: rest =>
    match processField st e with
    | .ok p =>
      let r := processFields p.fst rest
      (r.fst, p.snd ++ r.snd)
    | .error u => (.error u, [])

/-- The final accumulator state, `none` when the loop raised internally. -/
def slaFlags (fields : List (String × Value)) : Option SlaState :=
  match (processFields initState (findSlaFields fields)).fst with
  | .ok st => some st
  | .error _ => none

/-- Lines 139-143: the names of the required SLAs that were not found. -/
def missingList (st : SlaState) : List String :=
  (if st.fr_found then [] else ["Time to first response"]) ++
    (if st.res_found then [] else ["Time to resolution"])

/-- The warning printed at line 144. -/
def missingWarnLine (st : SlaState) : String :=
  "  → Warning: Required SLA(s) not found: " ++ String.intercalate ", " (missingList st)

/-- The status line printed at line 136. -/
def slaStatusLine (st : SlaState) : String :=
  "  → SLA Status: " ++
    (if st.fr_breached && st.res_breached then "BOTH BREACHED ✗" else "Not both breached ✓") ++
    " (" ++ toString ((if st.fr_breached then (1 : Nat) else 0) +
      (if st.res_breached then (1 : Nat) else 0)) ++ "/2)"

/-- `check_sla_breach` (lines 33-152): returns the decision together with the
printed lines. -/
def check_sla_breach (fields : List (String × Value)) : Bool × List String :=
  let sla := findSlaFields fields
  if sla.isEmpty then
    (false, ["  → Warning: No SLA fields found for ticket"])
  else
    match processFields initState sla with
    | (.ok st, log) =>
      if st.fr_found && st.res_found then
        (st.fr_breached && st.res_breached, log ++ [slaStatusLine st])
      else
        (false, log ++ [missingWarnLine st])
    | (.error _, log) =>
      (false, log ++ ["  → Warning: Could not check SLA status"])

/-!
## Working-day calculator and bot — `jira_auto_close.py`

Timestamps are minutes since a reference Monday 00:00 (timezone-naive, after
`strptime(...).replace(tzinfo=None)`); one calendar day is 1440 minutes and
`date.weekday()` is `t / 1440 % 7` with Monday = 0.
-/

/-- `is_working_day` (lines 28-30): `date.weekday() < 5`. -/
def is_working_day (t : Nat) : Bool :=
  t / 1440 % 7 < 5

/-- `calculate_working_days` (lines 32-51): starting from `start_date`, step by
`timedelta(days=1)` (exactly 24 h, i.e. 1440 minutes) while strictly before
`end_date`, counting steps that land on a working day. -/
def calculate_working_days (start_date end_date : Nat) : Nat :=
  if start_date < end_date then
    (if is_working_day start_date then 1 else 0) +
      calculate_working_days (start_date + 1440) end_date
  else 0
termination_by end_date - start_date
decreasing_by omega

/-- One entry of a ticket's changelog: its `created` timestamp (already parsed;
the `strptime` `ParseError` path is the per-ticket `except` collaborator) and
its `items` as `(field, toString)` pairs. -/
structure HistoryEntry where
  created : Nat
  items : List (String × String)
deriving Repr, DecidableEq

/-- Inner scan of lines 84-95 over `reversed(changelog.histories)`: the first
(most recent) history containing an item with `field == 'status'` and
`toString == status_name` yields its `created` timestamp. -/
def findWaitingInReversed (statusName : String) : List HistoryEntry → Option Nat
  | [] => none
  | h :: rest =>
    if h.items.any (fun it => it.fst == "status" && it.snd == statusName) then some h.created
    else findWaitingInReversed statusName rest

/-- `last_status_change` of lines 84-95. -/
def find_last_status_change (histories : List HistoryEntry) (statusName : String) : Option Nat :=
  findWaitingInReversed statusName histories.reverse

/-- The per-ticket body of `find_old_waiting_tickets` (lines 79-111): when a
last transition into the waiting status exists, print the elapsed-days line and
include the ticket iff `working_days > days_threshold`; otherwise do nothing.
Returns (`some (working_days, status_changed)` when the ticket is to be closed,
printed lines). -/
def processTicket (now daysThreshold : Nat) (statusName key : String)
    (histories : List HistoryEntry) : Option (Nat × Nat) × List String :=
  match find_last_status_change histories statusName with
  | some t =>
    ((if calculate_working_days t now > daysThreshold
        then some (calculate_working_days t now, t) else none),
      ["Ticket " ++ key ++ ": " ++ toString (calculate_working_days t now) ++
        " working days in " ++ statusName])
  | none => (none, [])

/-- A candidate ticket as returned by the status search: key and changelog. -/
structure TicketData where
  key : String
  histories : List HistoryEntry
deriving Repr, DecidableEq

/-- `find_old_waiting_tickets` (lines 53-113) over the search result: the list
of `(key, working_days, status_changed)` records to close, with printed lines. -/
def find_old_waiting_tickets (now daysThreshold : Nat) (statusName : String) :
    List TicketData → List (String × Nat × Nat) × List String
  | [] => ([], [])
  | t :: rest =>
    let pr := processTicket now daysThreshold statusName t.key t.histories
    let r := find_old_waiting_tickets now daysThreshold statusName rest
    ((match pr.fst with
      | some p => (t.key, p.fst, p.snd) :: r.fst
      | none => r.fst), pr.snd ++ r.snd)

/-- Observable outcome of one `run` invocation (lines 203-259): whether the
weekend notice was printed, whether the ticket search was performed, and the
keys for which a close was issued. -/
structure RunResult where
  weekendNotice : Bool
  searched : Bool
  closedKeys : List String
deriving Repr, DecidableEq

/-- `run` (lines 203-259): after the header, check `is_working_day(now)` and
return at once on a weekend; otherwise search, and close the found tickets
unless `dry_run`. -/
def run (now : Nat) (tickets : List TicketData) (daysThreshold : Nat) (dryRun : Bool) : RunResult :=
  if !(is_working_day now) then ⟨true, false, []⟩
  else
    let toClose := (find_old_waiting_tickets now daysThreshold "Waiting for customer" tickets).fst
    if toClose.isEmpty then ⟨false, true, []⟩
    else if dryRun then ⟨false, true, []⟩
    else ⟨false, true, toClose.map (fun x => x.fst)⟩

/-!
## Spec-side definitions

These two definitions follow the specification's words, for comparison with the
source-derived evaluator above.
-/

/-- Well-formed SLA field value in the sense of the spec's data model
(`SlaCycleRecord`): a mapping whose `ongoingCycle`, when present, is a mapping
with a boolean `breached` flag, and whose `completedCycles`, when present, is a
sequence. -/
def wellFormedSla (v : Value) : Bool :=
  v.isDict &&
    (match v.get? "ongoingCycle" with
      | none => true
      | some (.vDict og) =>
        (match og.lookup "breached" with
          | some (.vBool _) => true
          | _ => false)
      | some _ => false) &&
    (match v.get? "completedCycles" with
      | none => true
      | some (.vList _) => true
      | some _ => false)

/-- The spec's per-field breach rules, in priority order: an existing ongoing
cycle decides by its `breached` flag being explicitly `true` (regardless of
completed cycles); otherwise one or more completed cycles mean breached
(regardless of their own flags); otherwise no breach signal. -/
def specFieldBreached (v : Value) : Bool :=
  match v.get? "ongoingCycle" with
  | some (.vDict og) =>
    (match og.lookup "breached" with
      | some (.vBool true) => true
      | _ => false)
  | _ =>
    (match v.get? "completedCycles" with
      | some (.vList (_ :: _)) => true
      | _ => false)

/-- The spec's half-open calendar working-day count: the number of
Monday-to-Friday calendar days `d` with `day(start) ≤ d < day(end)`. -/
def halfOpenWorkingDayCount (s e : Nat) : Nat :=
  ((List.range (e / 1440 - s / 1440)).map (fun k => s / 1440 + k)).countP
    (fun d => decide (d % 7 < 5))

/-!
## Helper lemmas
-/

/-- Closed form of the 24-hour-stepping loop: the loop body runs
`⌈(e-s)/1440⌉` times, at timestamps `s, s+1440, s+2880, …`, counting the
iterations that land on a working day. -/
theorem cwd_steps (s e : Nat) :
    calculate_working_days s e =
      (List.range ((e - s + 1439) / 1440)).countP (fun k => is_working_day (s + 1440 * k)) := by
  by_cases h : s < e
  · have hN : (e - s + 1439) / 1440 = (e - (s + 1440) + 1439) / 1440 + 1 := by omega
    have ih := cwd_steps (s + 1440) e
    unfold calculate_working_days
    rw [if_pos h, ih, hN, List.range_succ_eq_map, List.countP_cons, List.countP_map]
    have hp : ((fun k => is_working_day (s + 1440 * k)) ∘ Nat.succ)
        = (fun k => is_working_day (s + 1440 + 1440 * k)) := by
      funext k
      have harg : s + 1440 * (k + 1) = s + 1440 + 1440 * k := by ring
      simp [Function.comp, Nat.succ_eq_add_one, harg]
    rw [hp]
    cases hw : is_working_day s <;> simp [hw, Nat.add_comm]
  · have hN : (e - s + 1439) / 1440 = 0 := by omega
    unfold calculate_working_days
    rw [if_neg h, hN]
    simp
termination_by e - s
decreasing_by omega

/-!
## Claims
-/

/-- **C3** (counterexample). With `start` = Monday 01:00 (minute 60) and
`end` = Tuesday 23:00 (minute 2820), `calculate_working_days` returns 2 —
counting `end`'s calendar day — while the number of Monday-to-Friday days in
the half-open calendar interval `[start, end)` is 1; with the same calendar
dates at midnight (minutes 0 and 1440) it returns 1, so sub-day timestamp
components do perturb the count. -/
theorem claim3_counterexample :
    calculate_working_days 60 2820 = 2 ∧
    halfOpenWorkingDayCount 60 2820 = 1 ∧
    calculate_working_days 0 1440 = 1 := by
  refine ⟨?_, ?_, ?_⟩
  · rw [cwd_steps]; decide
  · decide
  · rw [cwd_steps]; decide

/-- **C3** (amended). `calculate_working_days(start, end)` returns 0 when
`start = end`; in general it counts the Monday-to-Friday days among the
timestamps `start, start + 24h, start + 48h, …` that are strictly before
`end` (one per started 24-hour period); when `start` and `end` are both
midnight-aligned this equals the number of working days in the half-open
calendar interval `[start, end)`, but sub-day timestamp components of `start`
and `end` can perturb the count. -/
theorem claim3_amended :
    (∀ d : Nat, calculate_working_days d d = 0) ∧
    (∀ s e : Nat, calculate_working_days s e =
      (List.range ((e - s + 1439) / 1440)).countP (fun k => is_working_day (s + 1440 * k))) ∧
    (∀ a b : Nat, calculate_working_days (1440 * a) (1440 * b) =
      halfOpenWorkingDayCount (1440 * a) (1440 * b)) := by
  refine ⟨?_, cwd_steps, ?_⟩
  · intro d
    unfold calculate_working_days
    simp
  · intro a b
    rw [cwd_steps]
    unfold halfOpenWorkingDayCount
    have hb : 1440 * b / 1440 = b := by omega
    have ha : 1440 * a / 1440 = a := by omega
    have hN : (1440 * b - 1440 * a + 1439) / 1440 = b - a := by omega
    rw [hb, ha, hN, List.countP_map]
    have hp : ((fun d => decide (d % 7 < 5)) ∘ (fun k => a + k))
        = (fun k => is_working_day (1440 * a + 1440 * k)) := by
      funext k
      have harg : (1440 * a + 1440 * k) / 1440 = a + k := by omega
      simp [Function.comp, is_working_day, harg]
    rw [hp]

/-- **C9**. When the last transition into the waiting status is known, the
ticket is selected for closure if and only if its elapsed working-day count
strictly exceeds the threshold; an exactly-equal count is not selected. -/
theorem claim9_strict_threshold :
    ∀ (now daysThreshold : Nat) (statusName key : String)
      (histories : List HistoryEntry) (t : Nat),
      find_last_status_change histories statusName = some t →
      (processTicket now daysThreshold statusName key histories).fst =
        (if calculate_working_days t now > daysThreshold
          then some (calculate_working_days t now, t) else none) ∧
      ((processTicket now daysThreshold statusName key histories).fst ≠ none ↔
        daysThreshold < calculate_working_days t now) := by
  intro now th s k h t hf
  by_cases hc : calculate_working_days t now > th <;>
    simp [processTicket, hf, hc]

/-- Witness for C9: a transition at Monday 00:00 evaluated 8 calendar days
later (6 working days) with threshold 5 is selected; evaluated 7 calendar days
later (5 working days) it is not. -/
theorem claim9_strict_threshold_witness :
    (processTicket 11520 5 "Waiting for customer" "STS-1"
      [⟨0, [("status", "Waiting for customer")]⟩]).fst = some (6, 0) ∧
    (processTicket 10080 5 "Waiting for customer" "STS-1"
      [⟨0, [("status", "Waiting for customer")]⟩]).fst = none := by
  have h6 := (claim9_strict_threshold 11520 5 "Waiting for customer" "STS-1"
    [⟨0, [("status", "Waiting for customer")]⟩] 0 rfl).1
  have h5 := (claim9_strict_threshold 10080 5 "Waiting for customer" "STS-1"
    [⟨0, [("status", "Waiting for customer")]⟩] 0 rfl).1
  have e6 : calculate_working_days 0 11520 = 6 := by rw [cwd_steps]; decide
  have e5 : calculate_working_days 0 10080 = 5 := by rw [cwd_steps]; decide
  rw [e6] at h6
  rw [e5] at h5
  simp at h6 h5
  exact ⟨h6, h5⟩

/-- **C6** (counterexample). For a ticket with an empty status-change history
the engine produces no report at all: the per-ticket result is `(none, [])` —
the ticket is silently skipped, with no distinct "history unavailable" outcome
ever emitted. -/
theorem claim6_counterexample :
    processTicket 1440 5 "Waiting for customer" "STS-1" [] = (none, []) := rfl

/-- **C6** (amended). When the history contains no transition into the
configured waiting status, the ticket is not eligible and is silently skipped:
nothing is printed for it (in particular it is never reported as an elapsed
count of 0 working days) and it contributes nothing to the closure list; no
distinct "history unavailable" outcome is reported. -/
theorem claim6_amended :
    ∀ (now daysThreshold : Nat) (statusName key : String)
      (histories : List HistoryEntry),
      find_last_status_change histories statusName = none →
      processTicket now daysThreshold statusName key histories = (none, []) := by
  intro now th s k h hf
  simp [processTicket, hf]

/-- Witness for C6: a history whose only transition is to `Done` yields the
silent skip. -/
theorem claim6_amended_witness :
    processTicket 11520 5 "Waiting for customer" "STS-2"
      [⟨720, [("status", "Done")]⟩] = (none, []) :=
  claim6_amended 11520 5 "Waiting for customer" "STS-2"
    [⟨720, [("status", "Done")]⟩] rfl

/-- **C10**. If `run` is invoked on a Saturday or Sunday it stops right after
the weekend notice: the ticket search is not performed and no ticket is
closed, whatever the threshold and dry-run settings. -/
theorem claim10_weekend_skip :
    ∀ (now : Nat) (tickets : List TicketData) (daysThreshold : Nat) (dryRun : Bool),
      is_working_day now = false →
      run now tickets daysThreshold dryRun = ⟨true, false, []⟩ := by
  intro now tickets th dry h
  simp [run, h]

/-- Witness for C10: Saturday (day 5 of the reference week), a nonempty
candidate list, threshold 5, live mode. -/
theorem claim10_weekend_skip_witness :
    run 7200 [⟨"STS-1", [⟨0, [("status", "Waiting for customer")]⟩]⟩] 5 false
      = ⟨true, false, []⟩ :=
  claim10_weekend_skip 7200 [⟨"STS-1", [⟨0, [("status", "Waiting for customer")]⟩]⟩] 5 false rfl

/-- **C7** (counterexample). A custom field whose value is the plain string
`"see ongoingCycle data"` has a serialized representation containing the
marker `ongoingCycle`, yet it is not treated as an SLA-cycle record (the
detection also requires the value to be a dict). -/
theorem claim7_counterexample :
    hasSubstr (pyRepr (Value.vStr "see ongoingCycle data")) "ongoingCycle" = true ∧
    detectSlaField "customfield_10001" (Value.vStr "see ongoingCycle data") = false ∧
    findSlaFields [("customfield_10001", Value.vStr "see ongoingCycle data")] = [] :=
  ⟨by decide, by decide, rfl⟩

/-- **C7** (amended). A ticket field is treated as an SLA-cycle record if and
only if its attribute name contains `customfield`, its value (after wrapper
conversion) is a mapping, and the serialized representation of the value
contains `ongoingCycle` or `completedCycles`; a non-mapping value is never
detected even when its serialization contains a marker. -/
theorem claim7_amended :
    ∀ (fieldName : String) (v : Value),
      detectSlaField fieldName v =
        (hasSubstr fieldName "customfield" && v.isDict &&
          (hasSubstr (pyRepr v) "ongoingCycle" || hasSubstr (pyRepr v) "completedCycles")) := by
  intro n v
  cases v with
  | vDict xs =>
    cases xs with
    | nil =>
      have hm : (hasSubstr (pyRepr (Value.vDict [])) "ongoingCycle"
          || hasSubstr (pyRepr (Value.vDict [])) "completedCycles") = false := by decide
      simp [detectSlaField, truthy, Value.isDict, hm]
    | cons x rest => simp [detectSlaField, truthy, Value.isDict]
  | vNone => simp [detectSlaField, truthy, Value.isDict]
  | vBool b => simp [detectSlaField, truthy, Value.isDict]
  | vInt n' => simp [detectSlaField, truthy, Value.isDict]
  | vStr s => simp [detectSlaField, truthy, Value.isDict]
  | vList xs => simp [detectSlaField, truthy, Value.isDict]

/-- **C8** (counterexample). The lower-cased name `first response resolution`
contains `resolution` and does not contain `close after`, yet a field so named
does not contribute to the resolution category — the `elif` sends any name
matching `first response` to the first-response category only. -/
theorem claim8_counterexample :
    hasSubstr "first response resolution" "resolution" = true ∧
    hasSubstr "first response resolution" "close after" = false ∧
    (applyCategory initState "first response resolution" true).res_found = false ∧
    (applyCategory initState "first response resolution" true).fr_found = true := by
  decide

/-- **C8** (amended). On the lower-cased SLA name: a field contributes to the
first-response category iff the name contains `first response`; it contributes
to the resolution category iff the name does **not** contain `first response`,
contains `resolution`, and does not contain `close after` (so `Time to close
after resolution` is never classified as resolution); a field matching neither
pattern leaves all four flags — and hence the final decision — unchanged. -/
theorem claim8_amended :
    ∀ (st : SlaState) (nameLower : String) (isBreached : Bool),
      ((applyCategory st nameLower isBreached).fr_found
          = (st.fr_found || hasSubstr nameLower "first response")) ∧
      ((applyCategory st nameLower isBreached).fr_breached
          = (st.fr_breached || (hasSubstr nameLower "first response" && isBreached))) ∧
      ((applyCategory st nameLower isBreached).res_found
          = (st.res_found || (!(hasSubstr nameLower "first response")
              && hasSubstr nameLower "resolution" && !(hasSubstr nameLower "close after")))) ∧
      ((applyCategory st nameLower isBreached).res_breached
          = (st.res_breached || (!(hasSubstr nameLower "first response")
              && hasSubstr nameLower "resolution" && !(hasSubstr nameLower "close after")
              && isBreached))) := by
  intro st n b
  cases h1 : hasSubstr n "first response" <;>
    cases h2 : hasSubstr n "resolution" <;>
      cases h3 : hasSubstr n "close after" <;>
        cases b <;> simp [applyCategory, h1, h2, h3]

/-- **C1**. The evaluator's decision is `true` exactly when the per-field loop
completes and both the first-response and the resolution category have at
least one contributing field (`*_found`) and both show breached
(`*_breached`); in every other case — a category missing, a category not
breached, no SLA fields at all, or an internal exception — it is `false`. -/
theorem claim1_decision_iff :
    ∀ fields : List (String × Value),
      (check_sla_breach fields).fst = true ↔
        (∃ st : SlaState, slaFlags fields = some st ∧
          st.fr_found = true ∧ st.res_found = true ∧
          st.fr_breached = true ∧ st.res_breached = true) := by
  intro fields
  by_cases he : (findSlaFields fields).isEmpty
  · have h0 : findSlaFields fields = [] := by
      cases hfs : findSlaFields fields with
      | nil => rfl
      | cons a l => rw [hfs] at he; simp [List.isEmpty] at he
    simp [check_sla_breach, slaFlags, h0, processFields, initState]
  · rcases hp : processFields initState (findSlaFields fields) with ⟨r, log⟩
    cases r with
    | error u => simp [check_sla_breach, slaFlags, he, hp]
    | ok st =>
      simp only [check_sla_breach, slaFlags, he, hp]
      rcases st with ⟨a, b, c, d⟩
      cases a <;> cases b <;> cases c <;> cases d <;> simp

/-- **C2**. On a well-formed SLA field value, the per-field breach signal
follows the spec's priority rules (`specFieldBreached`): an existing ongoing
cycle decides by its `breached` flag being explicitly `true` — completed
cycles alongside it are ignored — else one or more completed cycles count as
breached regardless of their own flags, else no signal; and processing such a
field never raises. -/
theorem claim2_field_priority :
    ∀ (st : SlaState) (fieldName slaName : String) (v : Value),
      wellFormedSla v = true →
      processFieldFlags st (fieldName, Value.vStr slaName, v) =
        .ok (applyCategory st (pyLower slaName) (specFieldBreached v)) := by
  intro st fn nm v hw
  cases v with
  | vNone => simp [wellFormedSla, Value.isDict] at hw
  | vBool b => simp [wellFormedSla, Value.isDict] at hw
  | vInt n => simp [wellFormedSla, Value.isDict] at hw
  | vStr s => simp [wellFormedSla, Value.isDict] at hw
  | vList l => simp [wellFormedSla, Value.isDict] at hw
  | vDict xs =>
    simp only [wellFormedSla, Value.isDict, Value.get?, Bool.true_and, Bool.and_eq_true] at hw
    obtain ⟨hog, hcc⟩ := hw
    cases hO : xs.lookup "ongoingCycle" with
    | none =>
      cases hC : xs.lookup "completedCycles" with
      | none =>
        simp [processFieldFlags, processField, Value.isDict, Value.getD, hO, hC,
          truthy, specFieldBreached, Value.get?]
      | some c =>
        rw [hC] at hcc
        cases c with
        | vList l =>
          cases l with
          | nil =>
            simp [processFieldFlags, processField, Value.isDict, Value.getD, hO, hC,
              truthy, specFieldBreached, Value.get?]
          | cons x rest =>
            simp [processFieldFlags, processField, Value.isDict, Value.getD, hO, hC,
              truthy, specFieldBreached, Value.get?, pyIter]
        | vNone => simp at hcc
        | vBool b => simp at hcc
        | vInt n => simp at hcc
        | vStr s => simp at hcc
        | vDict d => simp at hcc
    | some og =>
      rw [hO] at hog
      cases og with
      | vDict d =>
        simp only at hog
        cases hbr : d.lookup "breached" with
        | none => rw [hbr] at hog; simp at hog
        | some bv =>
          rw [hbr] at hog
          cases bv with
          | vBool b =>
            have hne : d.isEmpty = false := by
              cases d with
              | nil => simp [List.lookup] at hbr
              | cons p rest => simp [List.isEmpty]
            cases b <;>
              simp [processFieldFlags, processField, Value.isDict, Value.getD, hO, hbr,
                truthy, hne, pyEqTrue, specFieldBreached, Value.get?]
          | vNone => simp at hog
          | vInt n => simp at hog
          | vStr s => simp at hog
          | vList l => simp at hog
          | vDict dd => simp at hog
      | vNone => simp at hog
      | vBool b => simp at hog
      | vInt n => simp at hog
      | vStr s => simp at hog
      | vList l => simp at hog

/-- Witness for C2: a field carrying an unbreached ongoing cycle **and** a
non-empty completed-cycles list is well formed, and its signal is decided by
the ongoing cycle (rule 2 wins over the completed cycles). -/
theorem claim2_field_priority_witness :
    wellFormedSla (Value.vDict [("ongoingCycle", Value.vDict [("breached", Value.vBool false)]),
      ("completedCycles", Value.vList [Value.vDict []])]) = true ∧
    processFieldFlags initState ("customfield_5", Value.vStr "Time to resolution",
        Value.vDict [("ongoingCycle", Value.vDict [("breached", Value.vBool false)]),
          ("completedCycles", Value.vList [Value.vDict []])]) =
      .ok (applyCategory initState (pyLower "Time to resolution")
        (specFieldBreached (Value.vDict [("ongoingCycle", Value.vDict [("breached", Value.vBool false)]),
          ("completedCycles", Value.vList [Value.vDict []])]))) :=
  ⟨by decide, claim2_field_priority initState "customfield_5" "Time to resolution"
    (Value.vDict [("ongoingCycle", Value.vDict [("breached", Value.vBool false)]),
      ("completedCycles", Value.vList [Value.vDict []])]) (by decide)⟩

/-- **C4** (counterexample). With only a first-response field present
(resolution category missing) and with both categories present but not
breached, `check_sla_breach` returns the very same plain `false` — the return
value does not distinguish the two outcomes (only the printed lines differ). -/
theorem claim4_counterexample :
    (check_sla_breach [("customfield_3", Value.vDict [("name", Value.vStr "Time to first response"),
        ("ongoingCycle", Value.vDict [("breached", Value.vBool true)])])]).fst = false ∧
    (check_sla_breach [("customfield_3", Value.vDict [("name", Value.vStr "Time to first response"),
        ("ongoingCycle", Value.vDict [("breached", Value.vBool false)])]),
      ("customfield_4", Value.vDict [("name", Value.vStr "Time to resolution"),
        ("ongoingCycle", Value.vDict [("breached", Value.vBool false)])])]).fst = false ∧
    (check_sla_breach [("customfield_3", Value.vDict [("name", Value.vStr "Time to first response"),
        ("ongoingCycle", Value.vDict [("breached", Value.vBool true)])])]).snd ≠
      (check_sla_breach [("customfield_3", Value.vDict [("name", Value.vStr "Time to first response"),
        ("ongoingCycle", Value.vDict [("breached", Value.vBool false)])]),
      ("customfield_4", Value.vDict [("name", Value.vStr "Time to resolution"),
        ("ongoingCycle", Value.vDict [("breached", Value.vBool false)])])]).snd := by
  refine ⟨by decide, by decide, by decide⟩

/-- **C4** (amended). When a required category is missing the evaluator prints
the warning line `→ Warning: Required SLA(s) not found: …` naming the missing
categories and returns `false`; when both categories are found but not both
breached it prints a status line (which never contains that warning marker)
and returns `false` — the console output distinguishes the two outcomes, the
returned boolean is the same plain `false` in both. -/
theorem claim4_missing_report :
    ∀ (fields : List (String × Value)) (st : SlaState) (log : List String),
      (findSlaFields fields).isEmpty = false →
      processFields initState (findSlaFields fields) = (.ok st, log) →
      (((st.fr_found && st.res_found) = false →
        check_sla_breach fields = (false, log ++ [missingWarnLine st])) ∧
      ((st.fr_found && st.res_found) = true → (st.fr_breached && st.res_breached) = false →
        check_sla_breach fields = (false, log ++ [slaStatusLine st])) ∧
      hasSubstr (missingWarnLine st) "Required SLA(s) not found" = true ∧
      hasSubstr (slaStatusLine st) "Required SLA(s) not found" = false) := by
  intro fields st log he hp
  refine ⟨?_, ?_, ?_, ?_⟩
  · intro hb
    simp [check_sla_breach, he, hp, hb]
  · intro hb hbb
    simp [check_sla_breach, he, hp, hb, hbb]
  · rcases st with ⟨a, b, c, d⟩
    cases a <;> cases b <;> cases c <;> cases d <;> decide
  · rcases st with ⟨a, b, c, d⟩
    cases a <;> cases b <;> cases c <;> cases d <;> decide

/-- Witness for C4: the one-field ticket from the counterexample, evaluated
through the theorem — `false` together with the missing-category warning. -/
theorem claim4_missing_report_witness :
    check_sla_breach [("customfield_3", Value.vDict [("name", Value.vStr "Time to first response"),
        ("ongoingCycle", Value.vDict [("breached", Value.vBool true)])])] =
      (false, ["    SLA Time to first response: ✗ BREACHED (elapsed: N/A)"] ++
        [missingWarnLine ⟨true, true, false, false⟩]) :=
  (claim4_missing_report [("customfield_3", Value.vDict [("name", Value.vStr "Time to first response"),
      ("ongoingCycle", Value.vDict [("breached", Value.vBool true)])])]
    ⟨true, true, false, false⟩
    ["    SLA Time to first response: ✗ BREACHED (elapsed: N/A)"] rfl rfl).1 rfl

/-- **C5** (counterexample). First conjunct: two fields whose `elapsedTime` /
`friendly` display sub-structures are entirely absent still contribute their
breach signals — the decision is `true`, not "no signal".  Second conjunct:
adding one field whose `completedCycles` is the truthy non-iterable `True`
makes the whole evaluation return `false` — the internal `TypeError` is caught
by the function-level handler, aborting the two remaining (well-formed,
breached) fields rather than skipping only the malformed one. -/
theorem claim5_counterexample :
    (check_sla_breach
      [("customfield_1", Value.vDict [("name", Value.vStr "Time to first response"),
          ("ongoingCycle", Value.vDict [("breached", Value.vBool true)])]),
        ("customfield_2", Value.vDict [("name", Value.vStr "Time to resolution"),
          ("completedCycles", Value.vList [Value.vDict []])])]).fst = true ∧
    (check_sla_breach
      [("customfield_0", Value.vDict [("name", Value.vStr "x"),
          ("completedCycles", Value.vBool true)]),
        ("customfield_1", Value.vDict [("name", Value.vStr "Time to first response"),
          ("ongoingCycle", Value.vDict [("breached", Value.vBool true)])]),
        ("customfield_2", Value.vDict [("name", Value.vStr "Time to resolution"),
          ("completedCycles", Value.vList [Value.vDict []])])]).fst = false := by
  refine ⟨by decide, by decide⟩

/-- **C5** (amended). A field whose `ongoingCycle` is a non-mapping (e.g. a
string) yields no breach signal and no exception, whatever the string; an
absent `friendly`/`elapsedTime` display sub-structure never changes the flag
effect of a field, only its printed text; and whenever the per-field loop
raises internally, the function-level handler catches it and the evaluator
returns plain `false` for the ticket (aborting that ticket's remaining
fields) instead of propagating the exception. -/
theorem claim5_no_signal_no_raise :
    ∀ (st : SlaState) (fieldName slaName ongoingStr : String),
      ((processField st (fieldName, Value.vStr slaName,
          Value.vDict [("name", Value.vStr slaName), ("ongoingCycle", Value.vStr ongoingStr)]) =
        .ok (applyCategory st (pyLower slaName) false, [])) ∧
      (processFieldFlags st (fieldName, Value.vStr slaName,
          Value.vDict [("name", Value.vStr slaName),
            ("ongoingCycle", Value.vDict [("breached", Value.vBool true)])]) =
        processFieldFlags st (fieldName, Value.vStr slaName,
          Value.vDict [("name", Value.vStr slaName),
            ("ongoingCycle", Value.vDict [("breached", Value.vBool true),
              ("elapsedTime", Value.vDict [("friendly", Value.vStr "2h")])])])) ∧
      (∀ fields : List (String × Value),
        (processFields initState (findSlaFields fields)).fst = .error () →
        (check_sla_breach fields).fst = false)) := by
  intro st fn nm s
  refine ⟨?_, rfl, ?_⟩
  · simp [processField, Value.isDict, Value.getD, truthy, List.lookup]
  · intro fields herr
    by_cases he : (findSlaFields fields).isEmpty
    · have h0 : findSlaFields fields = [] := by
        cases hfs : findSlaFields fields with
        | nil => rfl
        | cons a l => rw [hfs] at he; simp [List.isEmpty] at he
      rw [h0] at herr
      simp [processFields] at herr
    · rcases hp : processFields initState (findSlaFields fields) with ⟨r, log⟩
      rw [hp] at herr
      cases r with
      | ok st' => simp at herr
      | error u => simp [check_sla_breach, he, hp]

/-- Witness for C5: the malformed-`completedCycles` field alone already makes
the loop raise internally, and the evaluator returns `false`. -/
theorem claim5_no_signal_no_raise_witness :
    (check_sla_breach [("customfield_0", Value.vDict [("name", Value.vStr "x"),
      ("completedCycles", Value.vBool true)])]).fst = false :=
  (claim5_no_signal_no_raise initState "customfield_0" "x" "y").2.2
    [("customfield_0", Value.vDict [("name", Value.vStr "x"), ("completedCycles", Value.vBool true)])] rfl
